import Mathlib

/-!
Verification of the detector-space prediction-parameterisation core
(`algorithms/refinement/parameterisation/prediction_parameters.py`).

Scalars are embedded as exact rationals (`ℚ`).  The rotation matrix built by
scitbx's `axis_and_angle_as_r3_rotation_matrix` is embedded by the Rodrigues
axis-angle formula with cos phi and sin phi passed as explicit rational
parameters, since no claim depends on trigonometric evaluation.
-/

/-- A 3-vector of rationals (embedding of `matrix.col`). -/
structure Vec3 where
  x : ℚ
  y : ℚ
  z : ℚ
deriving DecidableEq

def Vec3.add (a b : Vec3) : Vec3 := ⟨a.x + b.x, a.y + b.y, a.z + b.z⟩

def Vec3.neg (a : Vec3) : Vec3 := ⟨-a.x, -a.y, -a.z⟩

/-- Vector times scalar, as in `e_X_r * dphi`. -/
def Vec3.smul (a : Vec3) (c : ℚ) : Vec3 := ⟨a.x * c, a.y * c, a.z * c⟩

def Vec3.dot (a b : Vec3) : ℚ := a.x * b.x + a.y * b.y + a.z * b.z

def Vec3.cross (a b : Vec3) : Vec3 :=
  ⟨a.y * b.z - a.z * b.y, a.z * b.x - a.x * b.z, a.x * b.y - a.y * b.x⟩

def Vec3.zero : Vec3 := ⟨0, 0, 0⟩

/-- A 3x3 rational matrix, stored by rows (embedding of `matrix.sqr`). -/
structure Mat3 where
  r0 : Vec3
  r1 : Vec3
  r2 : Vec3
deriving DecidableEq

def Mat3.c0 (M : Mat3) : Vec3 := ⟨M.r0.x, M.r1.x, M.r2.x⟩

def Mat3.c1 (M : Mat3) : Vec3 := ⟨M.r0.y, M.r1.y, M.r2.y⟩

def Mat3.c2 (M : Mat3) : Vec3 := ⟨M.r0.z, M.r1.z, M.r2.z⟩

def Mat3.mulVec (M : Mat3) (v : Vec3) : Vec3 := ⟨M.r0.dot v, M.r1.dot v, M.r2.dot v⟩

def Mat3.mulMat (A B : Mat3) : Mat3 :=
  ⟨⟨A.r0.dot B.c0, A.r0.dot B.c1, A.r0.dot B.c2⟩,
   ⟨A.r1.dot B.c0, A.r1.dot B.c1, A.r1.dot B.c2⟩,
   ⟨A.r2.dot B.c0, A.r2.dot B.c1, A.r2.dot B.c2⟩⟩

def Mat3.neg (M : Mat3) : Mat3 := ⟨M.r0.neg, M.r1.neg, M.r2.neg⟩

def Mat3.id : Mat3 := ⟨⟨1, 0, 0⟩, ⟨0, 1, 0⟩, ⟨0, 0, 1⟩⟩

/-- Rodrigues axis-angle rotation matrix (embedding of scitbx's
`axis_and_angle_as_r3_rotation_matrix`), with `c = cos phi`, `sn = sin phi`
supplied as exact parameters. -/
def rodrigues (e : Vec3) (c sn : ℚ) : Mat3 :=
  ⟨⟨c + (1 - c) * e.x * e.x, (1 - c) * e.x * e.y - sn * e.z, (1 - c) * e.x * e.z + sn * e.y⟩,
   ⟨(1 - c) * e.y * e.x + sn * e.z, c + (1 - c) * e.y * e.y, (1 - c) * e.y * e.z - sn * e.x⟩,
   ⟨(1 - c) * e.z * e.x - sn * e.y, (1 - c) * e.z * e.y + sn * e.x, c + (1 - c) * e.z * e.z⟩⟩

/-- Miller index, an integer triple. -/
def ZVec : Type := ℤ × ℤ × ℤ

instance : DecidableEq ZVec := by unfold ZVec; infer_instance

def intVec (h : ZVec) : Vec3 := ⟨(h.1 : ℚ), (h.2.1 : ℚ), (h.2.2 : ℚ)⟩

/-- Exact absolute value on ℚ (embedding of Python `abs`). -/
def qabs (x : ℚ) : ℚ := if x < 0 then -x else x

/-- One contained model parameterisation, as seen through the
`ParameterizedModel` capability: its current free-parameter values, its
parameter names, and its raw derivatives `get_ds_dp()` (one per free
parameter; matrices for Detector / CrystalOrientation / CrystalUnitCell
models, 3-vectors for Beam models). -/
structure PModel (α : Type) where
  params : List ℚ
  names : List String
  dsdp : List α
deriving DecidableEq

def PModel.num_free {α : Type} (m : PModel α) : ℕ := m.params.length

/-- A contained model's own setter: fails unless the length matches
`num_free()`. -/
def PModel.set_param_vals {α : Type} (m : PModel α) (v : List ℚ) : Option (PModel α) :=
  if v.length = m.params.length then some { m with params := v } else none

/-- The aggregate `PredictionParameterisation` state: the four ordered groups
of model parameterisations plus the geometry cache fields stashed by
`prepare()` (`_D`, `_s0`, `_U`, `_B`, `_axis`). -/
structure PredParam where
  det : List (PModel Mat3)
  beam : List (PModel Vec3)
  xlo : List (PModel Mat3)
  xluc : List (PModel Mat3)
  D : Mat3
  s0 : Vec3
  U : Mat3
  B : Mat3
  axis : Vec3
deriving DecidableEq

/-- Sum of `num_free()` over a group (one clause of `_len`). -/
def sumFree {α : Type} (ms : List (PModel α)) : ℕ := (ms.map fun m => m.params.length).sum

/-- `PredictionParameterisation._len` / `__len__`: total free parameters. -/
def total_len (pp : PredParam) : ℕ :=
  sumFree pp.det + sumFree pp.beam + sumFree pp.xlo + sumFree pp.xluc

/-- Concatenation of `get_param_vals()` over one group. -/
def groupParams {α : Type} (ms : List (PModel α)) : List ℚ := (ms.map fun m => m.params).flatten

/-- `PredictionParameterisation.get_param_vals`. -/
def get_param_vals (pp : PredParam) : List ℚ :=
  groupParams pp.det ++ groupParams pp.beam ++ groupParams pp.xlo ++ groupParams pp.xluc

/-- `PredictionParameterisation.get_param_names`: each group's names are
flattened as `label + str(model index) + own name`; the labels in the source
are `"Detector%d"`, `"Source%d"`, `"Crystal%d"`, `"Crystal%d"`. -/
def get_param_names (pp : PredParam) : List String :=
  (pp.det.enum.map fun p => p.2.names.map fun n => "Detector" ++ toString p.1 ++ n).flatten
    ++ (pp.beam.enum.map fun p => p.2.names.map fun n => "Source" ++ toString p.1 ++ n).flatten
    ++ (pp.xlo.enum.map fun p => p.2.names.map fun n => "Crystal" ++ toString p.1 ++ n).flatten
    ++ (pp.xluc.enum.map fun p => p.2.names.map fun n => "Crystal" ++ toString p.1 ++ n).flatten

/-- Errors of `set_param_vals`: the top-level length assertion, or a failure
inside a contained model's own setter. -/
inductive SetError where
  | countMismatch
  | innerMismatch
deriving DecidableEq

/-- One group's pass of `set_param_vals`: each model consumes `num_free()`
values from the front of the remaining list via its own setter.  Returns the
updated models, the remaining values and the error, if any; on an inner
failure the models already processed keep their new state and the rest are
untouched, matching exception propagation in the source. -/
def setGroupRun {α : Type} (ms : List (PModel α)) (vals : List ℚ) :
    List (PModel α) × List ℚ × Option SetError :=
  match ms with
  | [] => ([], vals, none)
  | m :: rest =>
    match m.set_param_vals (vals.take m.params.length) with
    | none => (m :: rest, vals, some SetError.innerMismatch)
    | some m2 =>
      match setGroupRun rest (vals.drop m.params.length) with
      | (rest2, vals2, e) => (m2 :: rest2, vals2, e)

/-- `PredictionParameterisation.set_param_vals`, with the resulting model
states made explicit.  The `assert len(vals) == len(self)` runs before any
model is touched; then the four groups are processed in the fixed order,
stopping at the first inner failure with the partial state. -/
def set_param_vals_run (pp : PredParam) (vals : List ℚ) : PredParam × Option SetError :=
  if vals.length = total_len pp then
    match setGroupRun pp.det vals with
    | (det2, _, some e) => ({ pp with det := det2 }, some e)
    | (det2, v1, none) =>
      match setGroupRun pp.beam v1 with
      | (beam2, _, some e) => ({ pp with det := det2, beam := beam2 }, some e)
      | (beam2, v2, none) =>
        match setGroupRun pp.xlo v2 with
        | (xlo2, _, some e) => ({ pp with det := det2, beam := beam2, xlo := xlo2 }, some e)
        | (xlo2, v3, none) =>
          match setGroupRun pp.xluc v3 with
          | (xluc2, _, some e) =>
            ({ pp with det := det2, beam := beam2, xlo := xlo2, xluc := xluc2 }, some e)
          | (xluc2, _, none) =>
            ({ pp with det := det2, beam := beam2, xlo := xlo2, xluc := xluc2 }, none)
  else (pp, some SetError.countMismatch)

/-- Clean spec-side description of "hand each model its own contiguous
slice": split `vals` into consecutive chunks of the given lengths. -/
def contiguousSlices : List ℕ → List ℚ → List (List ℚ)
  | [], _ => []
  | n :: ns, v => v.take n :: contiguousSlices ns (v.drop n)

/-- The per-model parameter lists of the aggregate, in the fixed group
order. -/
def paramLists (pp : PredParam) : List (List ℚ) :=
  (pp.det.map fun m => m.params) ++ (pp.beam.map fun m => m.params)
    ++ (pp.xlo.map fun m => m.params) ++ (pp.xluc.map fun m => m.params)

/-- The per-model free-parameter counts of the aggregate, in the fixed group
order. -/
def freeCounts (pp : PredParam) : List ℕ :=
  (pp.det.map fun m => m.params.length) ++ (pp.beam.map fun m => m.params.length)
    ++ (pp.xlo.map fun m => m.params.length) ++ (pp.xluc.map fun m => m.params.length)

/-- Spec-side description of `get_param_names`, written by direct recursion
with an explicit model counter rather than `enumerate`. -/
def labelledFrom {α : Type} (label : String) : ℕ → List (PModel α) → List String
  | _, [] => []
  | i, m :: rest => (m.names.map fun n => label ++ toString i ++ n) ++ labelledFrom label (i + 1) rest

/-- Diagnostic context of the degenerate-geometry failure: the quantities the
source prints before re-raising (`h`, `s`, `r`, rotation axis `e`, `s0`,
`U`). -/
structure DegenCtx where
  h : ZVec
  s : Vec3
  r : Vec3
  e : Vec3
  s0 : Vec3
  U : Mat3
deriving DecidableEq

/-- Errors of `_get_gradients_core`: the degenerate-geometry error (the
re-raised assertion, with its printed diagnostics carried as data), or the
unpack failure of `zip(*pos_grad)` when no parameterisation contributed. -/
inductive GradError where
  | degenerate (ctx : DegenCtx)
  | emptyUnpack
deriving DecidableEq

/-- The reciprocal lattice vector in the lab frame: `r = R * U * B * h`. -/
def refl_r (pp : PredParam) (hkl : ZVec) (c sn : ℚ) : Vec3 :=
  (((rodrigues pp.axis c sn).mulMat pp.U).mulMat pp.B).mulVec (intVec hkl)

/-- The shared denominator `e_r_s0 = (e x r) . s0`. -/
def refl_e_r_s0 (pp : PredParam) (hkl : ZVec) (c sn : ℚ) : ℚ :=
  (pp.axis.cross (refl_r pp hkl c sn)).dot pp.s0

/-- `_calc_dX_dp_and_dY_dp_from_dpv_dp`: the quotient rule converting a
pv-derivative to detector-plane derivatives. -/
def calc_dX_dp_and_dY_dp_from_dpv_dp (pv der : Vec3) : ℚ × ℚ :=
  let u := pv.x
  let v := pv.y
  let w := pv.z
  let w2 := w ^ 2
  let du_dp := der.x
  let dv_dp := der.y
  let dw_dp := der.z
  (du_dp / w - u * dw_dp / w2, dv_dp / w - v * dw_dp / w2)

/-- `DetectorSpacePredictionParameterisation_py._detector_derivatives`: the
loop runs over all detector parameterisations; the first contributes
`-D * dD/dp * pv` per raw derivative, every later one contributes zero
vectors — but counted by the stale `len(dd_ddet_p)` left over from the first
model; every iteration appends that many `0.0` phi entries. -/
def detector_derivatives_py (D : Mat3) (pv : Vec3) (ms : List (PModel Mat3)) :
    List Vec3 × List ℚ :=
  match ms with
  | [] => ([], [])
  | m0 :: rest =>
    let dd0 := m0.dsdp
    let dpv0 := dd0.map fun dd => ((D.neg.mulMat dd).mulVec pv)
    let zerosLater := (rest.map fun _ => dd0.map fun _ => Vec3.zero).flatten
    let dphiAll := ((m0 :: rest).map fun _ => dd0.map fun _ => (0 : ℚ)).flatten
    (dpv0 ++ zerosLater, dphiAll)

/-- `DetectorSpacePredictionParameterisation_py._beam_derivatives`: the loop
body ends in `return`, so only the first beam parameterisation is processed.
For it, `dphi/dp = -(r . ds0/dp) / e_r_s0` and
`dpv/dp = D * (e_X_r * dphi/dp + ds0/dp)`. -/
def beam_derivatives_py (D : Mat3) (r e_X_r : Vec3) (e_r_s0 : ℚ)
    (ms : List (PModel Vec3)) : List Vec3 × List ℚ :=
  match ms with
  | [] => ([], [])
  | m0 :: _ =>
    let ds0 := m0.dsdp
    let dphi := ds0.map fun d => -(r.dot d) / e_r_s0
    let dpv := List.zipWith (fun ph d => D.mulVec ((e_X_r.smul ph).add d)) dphi ds0
    (dpv, dphi)

/-- `DetectorSpacePredictionParameterisation_py._xl_orientation_derivatives`:
for every crystal orientation parameterisation, `dr/dp = R * dU/dp * B * h`,
`dphi/dp = -(dr/dp . s) / e_r_s0`, `dpv/dp = D * (dr/dp + e_X_r * dphi/dp)`. -/
def xl_orientation_derivatives_py (D B R : Mat3) (hv s e_X_r : Vec3) (e_r_s0 : ℚ)
    (ms : List (PModel Mat3)) : List Vec3 × List ℚ :=
  let per := ms.map fun m =>
    let drs := m.dsdp.map fun dU => ((R.mulMat dU).mulMat B).mulVec hv
    let dphis := drs.map fun dr => -(dr.dot s) / e_r_s0
    (List.zipWith (fun dr ph => D.mulVec (dr.add (e_X_r.smul ph))) drs dphis, dphis)
  ((per.map Prod.fst).flatten, (per.map Prod.snd).flatten)

/-- `DetectorSpacePredictionParameterisation_py._xl_unit_cell_derivatives`:
as the orientation case with `dr/dp = R * U * dB/dp * h`. -/
def xl_unit_cell_derivatives_py (D U R : Mat3) (hv s e_X_r : Vec3) (e_r_s0 : ℚ)
    (ms : List (PModel Mat3)) : List Vec3 × List ℚ :=
  let per := ms.map fun m =>
    let drs := m.dsdp.map fun dB => ((R.mulMat U).mulMat dB).mulVec hv
    let dphis := drs.map fun dr => -(dr.dot s) / e_r_s0
    (List.zipWith (fun dr ph => D.mulVec (dr.add (e_X_r.smul ph))) drs dphis, dphis)
  ((per.map Prod.fst).flatten, (per.map Prod.snd).flatten)

/-- Modelled from the spec: the compiled helper `detector_pv_derivative` of
`dials_refinement_helpers_ext` is not under src/; section 4.4 gives the pv
contribution `-D * dD/dp * pv` for each raw derivative. -/
def detector_pv_derivative (D : Mat3) (dds : List Mat3) (pv : Vec3) : List Vec3 :=
  dds.map fun dd => ((D.neg.mulMat dd).mulVec pv)

/-- Modelled from the spec: the compiled helper `beam_phi_derivative`
(section 4.5): `dphi/dp = -(r . ds0/dp) / e_r_s0`. -/
def beam_phi_derivative (r : Vec3) (ds0s : List Vec3) (e_r_s0 : ℚ) : List ℚ :=
  ds0s.map fun d => -(r.dot d) / e_r_s0

/-- Modelled from the spec: the compiled helper `beam_pv_derivative`
(section 4.5): `dpv/dp = D * (e_X_r * dphi/dp + ds0/dp)`. -/
def beam_pv_derivative (D : Mat3) (e_X_r : Vec3) (dphis : List ℚ) (ds0s : List Vec3) :
    List Vec3 :=
  List.zipWith (fun ph d => D.mulVec ((e_X_r.smul ph).add d)) dphis ds0s

/-- Modelled from the spec: the compiled helper
`crystal_orientation_r_derivative` (section 4.6): `dr/dp = R * dU/dp * B * h`. -/
def crystal_orientation_r_derivative (R : Mat3) (dUs : List Mat3) (B : Mat3) (hv : Vec3) :
    List Vec3 :=
  dUs.map fun dU => ((R.mulMat dU).mulMat B).mulVec hv

/-- Modelled from the spec: the compiled helper
`crystal_orientation_phi_derivative` (section 4.6): `dphi/dp = -(dr/dp . s) / e_r_s0`. -/
def crystal_orientation_phi_derivative (drs : List Vec3) (s : Vec3) (e_r_s0 : ℚ) : List ℚ :=
  drs.map fun dr => -(dr.dot s) / e_r_s0

/-- Modelled from the spec: the compiled helper
`crystal_orientation_pv_derivative` (section 4.6):
`dpv/dp = D * (dr/dp + e_X_r * dphi/dp)`. -/
def crystal_orientation_pv_derivative (D : Mat3) (drs : List Vec3) (e_X_r : Vec3)
    (dphis : List ℚ) : List Vec3 :=
  List.zipWith (fun dr ph => D.mulVec (dr.add (e_X_r.smul ph))) drs dphis

/-- Modelled from the spec: the compiled helper `crystal_cell_r_derivative`
(section 4.7): `dr/dp = R * U * dB/dp * h`. -/
def crystal_cell_r_derivative (R U : Mat3) (dBs : List Mat3) (hv : Vec3) : List Vec3 :=
  dBs.map fun dB => ((R.mulMat U).mulMat dB).mulVec hv

/-- Modelled from the spec: the compiled helper `crystal_cell_phi_derivative`
(section 4.7), identical in form to the orientation case. -/
def crystal_cell_phi_derivative (drs : List Vec3) (s : Vec3) (e_r_s0 : ℚ) : List ℚ :=
  drs.map fun dr => -(dr.dot s) / e_r_s0

/-- Modelled from the spec: the compiled helper `crystal_cell_pv_derivative`
(section 4.7), identical in form to the orientation case. -/
def crystal_cell_pv_derivative (D : Mat3) (drs : List Vec3) (e_X_r : Vec3)
    (dphis : List ℚ) : List Vec3 :=
  List.zipWith (fun dr ph => D.mulVec (dr.add (e_X_r.smul ph))) drs dphis

/-- `DetectorSpacePredictionParameterisation._detector_derivatives` (fast
path): the loop body ends in `return`, so only the first detector
parameterisation ever contributes anything; second and later models append
no entries at all. -/
def detector_derivatives_fast (D : Mat3) (pv : Vec3) (ms : List (PModel Mat3)) :
    List Vec3 × List ℚ :=
  match ms with
  | [] => ([], [])
  | m0 :: _ =>
    let dd0 := m0.dsdp
    (detector_pv_derivative D dd0 pv, dd0.map fun _ => (0 : ℚ))

/-- `DetectorSpacePredictionParameterisation._beam_derivatives` (fast path):
loop body ends in `return`; only the first beam parameterisation
contributes, through the compiled helpers. -/
def beam_derivatives_fast (D : Mat3) (r e_X_r : Vec3) (e_r_s0 : ℚ)
    (ms : List (PModel Vec3)) : List Vec3 × List ℚ :=
  match ms with
  | [] => ([], [])
  | m0 :: _ =>
    let ds0 := m0.dsdp
    let dphi := beam_phi_derivative r ds0 e_r_s0
    (beam_pv_derivative D e_X_r dphi ds0, dphi)

/-- `DetectorSpacePredictionParameterisation._xl_orientation_derivatives`
(fast path), through the compiled helpers; all models contribute. -/
def xl_orientation_derivatives_fast (D B R : Mat3) (hv s e_X_r : Vec3) (e_r_s0 : ℚ)
    (ms : List (PModel Mat3)) : List Vec3 × List ℚ :=
  let per := ms.map fun m =>
    let drs := crystal_orientation_r_derivative R m.dsdp B hv
    let dphis := crystal_orientation_phi_derivative drs s e_r_s0
    (crystal_orientation_pv_derivative D drs e_X_r dphis, dphis)
  ((per.map Prod.fst).flatten, (per.map Prod.snd).flatten)

/-- `DetectorSpacePredictionParameterisation._xl_unit_cell_derivatives`
(fast path), through the compiled helpers; all models contribute. -/
def xl_unit_cell_derivatives_fast (D U R : Mat3) (hv s e_X_r : Vec3) (e_r_s0 : ℚ)
    (ms : List (PModel Mat3)) : List Vec3 × List ℚ :=
  let per := ms.map fun m =>
    let drs := crystal_cell_r_derivative R U m.dsdp hv
    let dphis := crystal_cell_phi_derivative drs s e_r_s0
    (crystal_cell_pv_derivative D drs e_X_r dphis, dphis)
  ((per.map Prod.fst).flatten, (per.map Prod.snd).flatten)

/-- The final assembly of `_get_gradients_core`: quotient-rule conversion of
every accumulated pv-derivative, then `zip(dX_dp, dY_dp, dphi_dp)`.  The
tuple unpack `dX_dp, dY_dp = zip(*pos_grad)` fails when nothing was
accumulated. -/
def get_gradients_assemble (pv : Vec3) (dpv : List Vec3) (dphi : List ℚ) :
    Except GradError (List (ℚ × ℚ × ℚ)) :=
  match dpv with
  | [] => Except.error GradError.emptyUnpack
  | _ =>
    let pos := dpv.map fun d => calc_dX_dp_and_dY_dp_from_dpv_dp pv d
    Except.ok (List.zipWith (fun xy ph => (xy.1, xy.2, ph)) pos dphi)

/-- Shared skeleton of `_get_gradients_core` (defined once on the fast class
and inherited by the `_py` subclass; only the four per-group contributor
methods are overridden).  The assertion `abs(e_r_s0) > 1.e-6` fails exactly
when `|e_r_s0| <= 1e-6`, and the failure is re-raised after printing the
diagnostics, which we carry as the error payload. -/
def gradients_core
    (detf : Mat3 → Vec3 → List (PModel Mat3) → List Vec3 × List ℚ)
    (beamf : Mat3 → Vec3 → Vec3 → ℚ → List (PModel Vec3) → List Vec3 × List ℚ)
    (xlof : Mat3 → Mat3 → Mat3 → Vec3 → Vec3 → Vec3 → ℚ → List (PModel Mat3) → List Vec3 × List ℚ)
    (xlucf : Mat3 → Mat3 → Mat3 → Vec3 → Vec3 → Vec3 → ℚ → List (PModel Mat3) → List Vec3 × List ℚ)
    (pp : PredParam) (hkl : ZVec) (s : Vec3) (c sn : ℚ) :
    Except GradError (List (ℚ × ℚ × ℚ)) :=
  let R := rodrigues pp.axis c sn
  let pv := pp.D.mulVec s
  let r := refl_r pp hkl c sn
  let e_X_r := pp.axis.cross r
  let e_r_s0 := e_X_r.dot pp.s0
  if qabs e_r_s0 ≤ 1 / 1000000 then
    Except.error (GradError.degenerate ⟨hkl, s, r, pp.axis, pp.s0, pp.U⟩)
  else
    let dDet := detf pp.D pv pp.det
    let dBeam := beamf pp.D r e_X_r e_r_s0 pp.beam
    let dXlo := xlof pp.D pp.B R (intVec hkl) s e_X_r e_r_s0 pp.xlo
    let dXluc := xlucf pp.D pp.U R (intVec hkl) s e_X_r e_r_s0 pp.xluc
    get_gradients_assemble pv (dDet.1 ++ dBeam.1 ++ dXlo.1 ++ dXluc.1)
      (dDet.2 ++ dBeam.2 ++ dXlo.2 ++ dXluc.2)

/-- `_get_gradients_core` of `DetectorSpacePredictionParameterisation_py`. -/
def get_gradients_core_py (pp : PredParam) (hkl : ZVec) (s : Vec3) (c sn : ℚ) :
    Except GradError (List (ℚ × ℚ × ℚ)) :=
  gradients_core detector_derivatives_py beam_derivatives_py
    xl_orientation_derivatives_py xl_unit_cell_derivatives_py pp hkl s c sn

/-- `_get_gradients_core` of `DetectorSpacePredictionParameterisation`
(fast path, through the spec-modelled compiled helpers). -/
def get_gradients_core_fast (pp : PredParam) (hkl : ZVec) (s : Vec3) (c sn : ℚ) :
    Except GradError (List (ℚ × ℚ × ℚ)) :=
  gradients_core detector_derivatives_fast beam_derivatives_fast
    xl_orientation_derivatives_fast xl_unit_cell_derivatives_fast pp hkl s c sn

/-- Length of a successful gradient row. -/
def okLength (res : Except GradError (List (ℚ × ℚ × ℚ))) : Option ℕ :=
  match res with
  | Except.ok l => some l.length
  | Except.error _ => none

/-- Spec-side description of one group's pass of `set_param_vals`: model `k`
receives the contiguous slice of the input starting after the slices of
models `0..k-1`. -/
def applySlices {α : Type} : List (PModel α) → List ℚ → List (PModel α)
  | [], _ => []
  | m :: rest, v =>
    { m with params := v.take m.params.length } :: applySlices rest (v.drop m.params.length)

/-- A beam parameterisation with one free parameter, `ds0/dp = (1,0,0)`. -/
def beamModelA : PModel Vec3 := ⟨[0], ["a"], [⟨1, 0, 0⟩]⟩

/-- A second beam parameterisation with one free parameter, `ds0/dp = (0,1,0)`. -/
def beamModelB : PModel Vec3 := ⟨[0], ["b"], [⟨0, 1, 0⟩]⟩

/-- A detector parameterisation with one free parameter. -/
def detModelA : PModel Mat3 := ⟨[0], ["a"], [Mat3.id]⟩

/-- A detector parameterisation with two free parameters. -/
def detModelB : PModel Mat3 := ⟨[0, 0], ["b1", "b2"], [Mat3.id, Mat3.id]⟩

/-- Another detector parameterisation with one free parameter. -/
def detModelC : PModel Mat3 := ⟨[0], ["c"], [Mat3.id]⟩

/-- A crystal parameterisation with one free parameter named `p`. -/
def xlModelP : PModel Mat3 := ⟨[0], ["p"], [Mat3.id]⟩

/-- Non-degenerate base configuration: identity matrices, rotation axis
`(0,0,1)`, incident beam `(0,1,0)`, a single beam parameterisation. -/
def ppOneBeam : PredParam :=
  { det := [], beam := [beamModelA], xlo := [], xluc := [],
    D := Mat3.id, s0 := ⟨0, 1, 0⟩, U := Mat3.id, B := Mat3.id, axis := ⟨0, 0, 1⟩ }

/-- As `ppOneBeam` but with two beam parameterisations. -/
def ppTwoBeam : PredParam := { ppOneBeam with beam := [beamModelA, beamModelB] }

/-- As `ppOneBeam` but with two detector parameterisations and no beam
parameterisation. -/
def ppTwoDet : PredParam := { ppOneBeam with det := [detModelA, detModelC], beam := [] }

/-- One crystal orientation and one crystal unit cell parameterisation, each
with a parameter named `p`. -/
def ppNamesClash : PredParam := { ppOneBeam with beam := [], xlo := [xlModelP], xluc := [xlModelP] }

/-! ## Helper lemmas -/

theorem zipWith_map_self {α β γ : Type} (f : β → α → γ) (g : α → β) (l : List α) :
    List.zipWith f (l.map g) l = l.map fun a => f (g a) a := by
  induction l with
  | nil => rfl
  | cons a t ih => simp [ih]

theorem assemble_ne_degenerate (pv : Vec3) (dpv : List Vec3) (dphi : List ℚ)
    (ctx : DegenCtx) :
    get_gradients_assemble pv dpv dphi ≠ Except.error (GradError.degenerate ctx) := by
  cases dpv <;> simp [get_gradients_assemble]

/-! ## C4: quotient-rule projection -/

/-- C4: for every projection vector `pv = (u, v, w)` with `w ≠ 0` and every
accumulated pv-derivative `d`, the detector-plane derivatives returned by the
projection step are exactly `dX/dp = d.x/w - u*d.z/w^2` and
`dY/dp = d.y/w - v*d.z/w^2` (the quotient rule). -/
theorem quotient_rule_projection (pv der : Vec3) (hw : pv.z ≠ 0) :
    calc_dX_dp_and_dY_dp_from_dpv_dp pv der =
      (der.x / pv.z - pv.x * der.z / pv.z ^ 2, der.y / pv.z - pv.y * der.z / pv.z ^ 2) := rfl

theorem quotient_rule_projection_witness :
    (3 : ℚ) ≠ 0 ∧
      calc_dX_dp_and_dY_dp_from_dpv_dp ⟨1, 2, 3⟩ ⟨4, 5, 6⟩ =
        ((4 : ℚ) / 3 - 1 * 6 / (3 : ℚ) ^ 2, (5 : ℚ) / 3 - 2 * 6 / (3 : ℚ) ^ 2) :=
  ⟨by norm_num, quotient_rule_projection ⟨1, 2, 3⟩ ⟨4, 5, 6⟩ (by norm_num)⟩

/-! ## C10: count mismatch is raised before any setter runs -/

/-- C10: when `set_param_vals` is called with a vector whose length differs
from `total_free_parameters()`, the length assertion fails before any
contained model's setter is invoked, so the resulting aggregate state is the
unchanged input state. -/
theorem count_mismatch_leaves_state (pp : PredParam) (vals : List ℚ)
    (h : vals.length ≠ total_len pp) :
    set_param_vals_run pp vals = (pp, some SetError.countMismatch) := by
  unfold set_param_vals_run
  rw [if_neg h]

theorem count_mismatch_leaves_state_witness :
    set_param_vals_run ppOneBeam [] = (ppOneBeam, some SetError.countMismatch) :=
  count_mismatch_leaves_state ppOneBeam [] (by decide)

/-! ## C1: gradient row length versus total free parameters -/

/-- C1 (failing evaluation): with two beam parameterisations of one free
parameter each and non-degenerate geometry, the gradient row of the
`_py` implementation has a single entry although `total_free_parameters()`
is 2 — the `_beam_derivatives` loop body ends in `return`, so only the first
beam model contributes. -/
theorem beam_group_truncation_eval :
    okLength (get_gradients_core_py ppTwoBeam (1, 0, 0) ⟨1, 1, 1⟩ 1 0) = some 1 ∧
      total_len ppTwoBeam = 2 := by
  constructor
  · norm_num [okLength, get_gradients_core_py, gradients_core, refl_r, ppTwoBeam, ppOneBeam,
      rodrigues, Mat3.mulMat, Mat3.mulVec, Vec3.dot, Vec3.cross, Vec3.add, Vec3.smul, intVec,
      Mat3.id, Mat3.c0, Mat3.c1, Mat3.c2, qabs, detector_derivatives_py, beam_derivatives_py,
      xl_orientation_derivatives_py, xl_unit_cell_derivatives_py, get_gradients_assemble,
      calc_dX_dp_and_dY_dp_from_dpv_dp, beamModelA, beamModelB]
  · decide

/-! ## C8: contribution of a second detector parameterisation -/

/-- C8 (failing evaluation): with a first detector parameterisation of one
free parameter and a second of two free parameters, the `_py`
`_detector_derivatives` appends only one zero pv entry and one zero phi
entry for the second model (counted by the stale `len(dd_ddet_p)` of the
first model), so 2 entries appear in total where the claim requires 3; the
fast path's early `return` appends nothing at all for the second model. -/
theorem detector_second_model_eval :
    detector_derivatives_py Mat3.id ⟨1, 1, 1⟩ [detModelA, detModelB] =
        ([⟨-1, -1, -1⟩, Vec3.zero], [0, 0]) ∧
      sumFree [detModelA, detModelB] = 3 ∧
      detector_derivatives_fast Mat3.id ⟨1, 1, 1⟩ [detModelA, detModelB] =
        ([⟨-1, -1, -1⟩], [0]) := by
  refine ⟨?_, by decide, ?_⟩
  · norm_num [detector_derivatives_py, detModelA, detModelB, Mat3.id, Mat3.neg, Mat3.mulMat,
      Mat3.mulVec, Mat3.c0, Mat3.c1, Mat3.c2, Vec3.dot, Vec3.neg, Vec3.zero]
  · norm_num [detector_derivatives_fast, detector_pv_derivative, detModelA, detModelB, Mat3.id,
      Mat3.neg, Mat3.mulMat, Mat3.mulVec, Mat3.c0, Mat3.c1, Mat3.c2, Vec3.dot, Vec3.neg]

/-! ## C5: beam contributor formulas -/

/-- C5 (counterexample): with two beam parameterisations of one free
parameter each, the beam contributor produces a single phi entry and a
single pv entry, so the second model's free parameter has no contributed
derivative at all — contradicting the claim's "for every Beam-group model
and every one of its free parameters". -/
theorem beam_formula_cex :
    (beam_derivatives_py Mat3.id ⟨1, 0, 0⟩ ⟨0, 1, 0⟩ 1 [beamModelA, beamModelB]).2.length = 1 ∧
      beamModelA.num_free + beamModelB.num_free = 2 := by
  constructor
  · norm_num [beam_derivatives_py, beamModelA, beamModelB]
  · decide

/-- C5 (amended): for the FIRST Beam-group model and every one of its free
parameters with raw derivative `d = ds0/dp`, the contributed derivatives are
`dphi/dp = -(r . d) / e_r_s0` and `dpv/dp = D * (e_X_r * dphi/dp + d)`;
later beam models contribute nothing because the loop body ends in
`return`. -/
theorem beam_first_model_formulas (D : Mat3) (r e_X_r : Vec3) (e_r_s0 : ℚ)
    (m0 : PModel Vec3) (rest : List (PModel Vec3)) :
    beam_derivatives_py D r e_X_r e_r_s0 (m0 :: rest) =
      (m0.dsdp.map fun d => D.mulVec ((e_X_r.smul (-(r.dot d) / e_r_s0)).add d),
       m0.dsdp.map fun d => -(r.dot d) / e_r_s0) := by
  show (let ds0 := m0.dsdp
        let dphi := ds0.map fun d => -(r.dot d) / e_r_s0
        let dpv := List.zipWith (fun ph d => D.mulVec ((e_X_r.smul ph).add d)) dphi ds0
        (dpv, dphi)) = _
  simp only [zipWith_map_self]

/-! ## C6: parameter name construction and uniqueness -/

/-- C6 (counterexample): a crystal orientation model and a crystal unit cell
model, each with a parameter named `p`, both produce the global name
`Crystal0p`, so `get_param_names()` is not globally unique across the four
groups. -/
theorem param_names_clash_cex :
    get_param_names ppNamesClash = ["Crystal0p", "Crystal0p"] ∧
      ¬ (get_param_names ppNamesClash).Nodup := by
  have h : get_param_names ppNamesClash = ["Crystal0p", "Crystal0p"] := by
    simp only [get_param_names, ppNamesClash, ppOneBeam, xlModelP]
    rfl
  exact ⟨h, by rw [h]; decide⟩

/-! ## C2: degenerate-geometry error -/

/-- C2: for every reflection whose geometry gives `|e_r_s0| <= 1e-6`, the
gradient computation signals the degenerate-geometry error carrying the
reflection's diagnostic context (h, s, r, rotation axis e, s0, U) rather
than returning a gradient row, and the error propagates to the caller; for
every reflection with `|e_r_s0|` strictly above the tolerance no such error
is raised. -/
theorem degenerate_geometry_signalled (pp : PredParam) (hkl : ZVec) (s : Vec3) (c sn : ℚ) :
    (qabs (refl_e_r_s0 pp hkl c sn) ≤ 1 / 1000000 →
      get_gradients_core_py pp hkl s c sn =
        Except.error (GradError.degenerate
          ⟨hkl, s, refl_r pp hkl c sn, pp.axis, pp.s0, pp.U⟩)) ∧
    (1 / 1000000 < qabs (refl_e_r_s0 pp hkl c sn) →
      ∀ ctx : DegenCtx,
        get_gradients_core_py pp hkl s c sn ≠ Except.error (GradError.degenerate ctx)) := by
  constructor
  · intro hle
    simp only [get_gradients_core_py, gradients_core]
    split
    · rfl
    · next hcond => exact absurd hle hcond
  · intro hlt ctx
    simp only [get_gradients_core_py, gradients_core]
    split
    · next hcond => exact absurd hcond (not_le.mpr hlt)
    · exact assemble_ne_degenerate _ _ _ ctx

theorem degenerate_geometry_signalled_witness :
    get_gradients_core_py ppOneBeam (0, 0, 1) ⟨1, 1, 1⟩ 1 0 =
        Except.error (GradError.degenerate
          ⟨(0, 0, 1), ⟨1, 1, 1⟩, refl_r ppOneBeam (0, 0, 1) 1 0,
            ppOneBeam.axis, ppOneBeam.s0, ppOneBeam.U⟩) ∧
      ∀ ctx : DegenCtx,
        get_gradients_core_py ppOneBeam (1, 0, 0) ⟨1, 1, 1⟩ 1 0 ≠
          Except.error (GradError.degenerate ctx) :=
  ⟨(degenerate_geometry_signalled ppOneBeam (0, 0, 1) ⟨1, 1, 1⟩ 1 0).1
      (by norm_num [qabs, refl_e_r_s0, refl_r, rodrigues, ppOneBeam, Mat3.mulMat, Mat3.mulVec,
        Mat3.c0, Mat3.c1, Mat3.c2, Vec3.dot, Vec3.cross, intVec, Mat3.id]),
    (degenerate_geometry_signalled ppOneBeam (1, 0, 0) ⟨1, 1, 1⟩ 1 0).2
      (by norm_num [qabs, refl_e_r_s0, refl_r, rodrigues, ppOneBeam, Mat3.mulMat, Mat3.mulVec,
        Mat3.c0, Mat3.c1, Mat3.c2, Vec3.dot, Vec3.cross, intVec, Mat3.id])⟩

/-! ## C9: fast path versus pure-Python reference path -/

theorem beam_fast_eq_py (D : Mat3) (r e_X_r : Vec3) (e_r_s0 : ℚ) (ms : List (PModel Vec3)) :
    beam_derivatives_fast D r e_X_r e_r_s0 ms = beam_derivatives_py D r e_X_r e_r_s0 ms := by
  cases ms <;> rfl

theorem xlo_fast_eq_py : xl_orientation_derivatives_fast = xl_orientation_derivatives_py := rfl

theorem xluc_fast_eq_py : xl_unit_cell_derivatives_fast = xl_unit_cell_derivatives_py := rfl

theorem det_fast_eq_py (D : Mat3) (pv : Vec3) (ms : List (PModel Mat3))
    (h : ms.length ≤ 1) :
    detector_derivatives_fast D pv ms = detector_derivatives_py D pv ms := by
  cases ms with
  | nil => rfl
  | cons m t =>
    cases t with
    | nil =>
      simp [detector_derivatives_fast, detector_derivatives_py, detector_pv_derivative]
    | cons m2 t2 => simp at h

/-- C9 (counterexample): in a concrete configuration with two detector
parameterisations of one free parameter each, the fast path and the
pure-Python reference path return different gradient rows (the fast path's
`_detector_derivatives` returns from inside its loop after the first model,
the `_py` version appends a zero entry for the second), refuting the
claim's unconditional equality of the two paths. -/
theorem fast_py_divergence_cex :
    get_gradients_core_fast ppTwoDet (1, 0, 0) ⟨1, 1, 1⟩ 1 0 ≠
      get_gradients_core_py ppTwoDet (1, 0, 0) ⟨1, 1, 1⟩ 1 0 := by
  norm_num [get_gradients_core_fast, get_gradients_core_py, gradients_core, refl_r, ppTwoDet,
    ppOneBeam, rodrigues, Mat3.mulMat, Mat3.mulVec, Vec3.dot, Vec3.cross, Vec3.add, Vec3.smul,
    Vec3.neg, Vec3.zero, Mat3.neg, intVec, Mat3.id, Mat3.c0, Mat3.c1, Mat3.c2, qabs,
    detector_derivatives_py, detector_derivatives_fast, detector_pv_derivative,
    beam_derivatives_py, beam_derivatives_fast, xl_orientation_derivatives_py,
    xl_orientation_derivatives_fast, xl_unit_cell_derivatives_py, xl_unit_cell_derivatives_fast,
    get_gradients_assemble, calc_dX_dp_and_dY_dp_from_dpv_dp, detModelA, detModelC]

/-- C9 (amended): whenever the Detector group contains at most one
parameterisation, the fast implementation and the pure-Python reference
implementation compute equal gradient rows for every reflection. -/
theorem fast_py_equiv_single_detector (pp : PredParam) (hkl : ZVec) (s : Vec3) (c sn : ℚ)
    (hdet : pp.det.length ≤ 1) :
    get_gradients_core_fast pp hkl s c sn = get_gradients_core_py pp hkl s c sn := by
  simp only [get_gradients_core_fast, get_gradients_core_py, gradients_core,
    det_fast_eq_py _ _ _ hdet, beam_fast_eq_py, xlo_fast_eq_py, xluc_fast_eq_py]

theorem fast_py_equiv_single_detector_witness :
    get_gradients_core_fast ppOneBeam (1, 0, 0) ⟨1, 1, 1⟩ 1 0 =
      get_gradients_core_py ppOneBeam (1, 0, 0) ⟨1, 1, 1⟩ 1 0 :=
  fast_py_equiv_single_detector ppOneBeam (1, 0, 0) ⟨1, 1, 1⟩ 1 0 (by decide)

/-! ## C3 / C7: set_param_vals slicing and round trip -/

theorem setGroupRun_eq {α : Type} (ms : List (PModel α)) (vals : List ℚ)
    (h : sumFree ms ≤ vals.length) :
    setGroupRun ms vals = (applySlices ms vals, vals.drop (sumFree ms), none) := by
  induction ms generalizing vals with
  | nil => simp [setGroupRun, applySlices, sumFree]
  | cons m t ih =>
    have hsum : sumFree (m :: t) = m.params.length + sumFree t := by
      simp [sumFree]
    rw [hsum] at h
    have hk : m.params.length ≤ vals.length := by omega
    have htake : (vals.take m.params.length).length = m.params.length := by
      simp [List.length_take]; omega
    have hrest : sumFree t ≤ (vals.drop m.params.length).length := by
      simp [List.length_drop]; omega
    simp only [setGroupRun, PModel.set_param_vals, htake, if_pos, ih _ hrest, applySlices,
      hsum, List.drop_drop, Nat.add_comm]

theorem applySlices_params {α : Type} (ms : List (PModel α)) (vals : List ℚ) :
    (applySlices ms vals).map (fun m => m.params) =
      contiguousSlices (ms.map fun m => m.params.length) vals := by
  induction ms generalizing vals with
  | nil => rfl
  | cons m t ih => simp [applySlices, contiguousSlices, ih]

theorem contiguousSlices_append (l1 l2 : List ℕ) (v : List ℚ) :
    contiguousSlices (l1 ++ l2) v =
      contiguousSlices l1 v ++ contiguousSlices l2 (v.drop l1.sum) := by
  induction l1 generalizing v with
  | nil => simp [contiguousSlices]
  | cons n t ih => simp [contiguousSlices, ih, List.drop_drop, Nat.add_comm]

/-- C3: `set_param_vals(values)` fails with the length-mismatch error
whenever `len(values)` differs from `total_free_parameters()`; when the
lengths match it succeeds and hands each contained model exactly
`num_free()` consecutive values of the input as a contiguous slice,
iterating models in the fixed group order Detector, Beam,
CrystalOrientation, CrystalUnitCell. -/
theorem set_param_vals_contract (pp : PredParam) (vals : List ℚ) :
    (vals.length ≠ total_len pp →
      (set_param_vals_run pp vals).2 = some SetError.countMismatch) ∧
    (vals.length = total_len pp →
      (set_param_vals_run pp vals).2 = none ∧
      paramLists (set_param_vals_run pp vals).1 = contiguousSlices (freeCounts pp) vals) := by
  constructor
  · intro h
    unfold set_param_vals_run
    rw [if_neg h]
  · intro h
    have h1 : sumFree pp.det ≤ vals.length := by unfold total_len at h; omega
    have h2 : sumFree pp.beam ≤ (vals.drop (sumFree pp.det)).length := by
      simp [List.length_drop]; unfold total_len at h; omega
    have h3 : sumFree pp.xlo ≤ ((vals.drop (sumFree pp.det)).drop (sumFree pp.beam)).length := by
      simp [List.length_drop]; unfold total_len at h; omega
    have h4 : sumFree pp.xluc ≤
        (((vals.drop (sumFree pp.det)).drop (sumFree pp.beam)).drop (sumFree pp.xlo)).length := by
      simp [List.length_drop]; unfold total_len at h; omega
    have hrun : set_param_vals_run pp vals =
        ({ pp with
            det := applySlices pp.det vals,
            beam := applySlices pp.beam (vals.drop (sumFree pp.det)),
            xlo := applySlices pp.xlo ((vals.drop (sumFree pp.det)).drop (sumFree pp.beam)),
            xluc := applySlices pp.xluc
              (((vals.drop (sumFree pp.det)).drop (sumFree pp.beam)).drop (sumFree pp.xlo)) },
          none) := by
      unfold set_param_vals_run
      rw [if_pos h, setGroupRun_eq _ _ h1]
      dsimp only
      rw [setGroupRun_eq _ _ h2]
      dsimp only
      rw [setGroupRun_eq _ _ h3]
      dsimp only
      rw [setGroupRun_eq _ _ h4]
    refine ⟨by rw [hrun], ?_⟩
    rw [hrun]
    simp only [paramLists, freeCounts, contiguousSlices_append, applySlices_params,
      List.sum_append, List.drop_drop, List.append_assoc, sumFree]

theorem set_param_vals_contract_witness :
    (set_param_vals_run ppOneBeam []).2 = some SetError.countMismatch ∧
    (set_param_vals_run ppOneBeam [5]).2 = none ∧
    paramLists (set_param_vals_run ppOneBeam [5]).1 = contiguousSlices (freeCounts ppOneBeam) [5] :=
  ⟨(set_param_vals_contract ppOneBeam []).1 (by decide),
   (set_param_vals_contract ppOneBeam [5]).2 (by decide)⟩

theorem setGroupRun_self {α : Type} (ms : List (PModel α)) (rest : List ℚ) :
    setGroupRun ms (groupParams ms ++ rest) = (ms, rest, none) := by
  induction ms generalizing rest with
  | nil => simp [setGroupRun, groupParams]
  | cons m t ih =>
    have hflat : groupParams (m :: t) = m.params ++ groupParams t := by
      simp [groupParams]
    rw [hflat, List.append_assoc]
    simp only [setGroupRun, PModel.set_param_vals, List.take_left, List.drop_left, ih]
    simp

theorem get_param_vals_length (pp : PredParam) : (get_param_vals pp).length = total_len pp := by
  have hg : ∀ (α : Type) (ms : List (PModel α)), (groupParams ms).length = sumFree ms := by
    intro α ms
    simp [groupParams, sumFree, List.length_flatten, List.map_map, Function.comp_def]
  simp only [get_param_vals, List.length_append, hg, total_len]

/-- C7: `get_param_vals()` followed immediately by `set_param_vals()` with
the returned vector is a no-op: every contained model's parameter state (and
the whole aggregate state) is unchanged, and no error is raised. -/
theorem get_set_roundtrip (pp : PredParam) :
    set_param_vals_run pp (get_param_vals pp) = (pp, none) := by
  unfold set_param_vals_run
  rw [if_pos (get_param_vals_length pp)]
  have hv : get_param_vals pp =
      groupParams pp.det ++ (groupParams pp.beam ++ (groupParams pp.xlo ++ groupParams pp.xluc)) := by
    simp [get_param_vals, List.append_assoc]
  rw [hv, setGroupRun_self]
  dsimp only
  rw [setGroupRun_self]
  dsimp only
  rw [setGroupRun_self]
  dsimp only
  have hx : groupParams pp.xluc = groupParams pp.xluc ++ [] := by simp
  rw [hx, setGroupRun_self]

/-! ## C6 (amended): name construction -/

theorem enumFrom_labelled {α : Type} (label : String) (ms : List (PModel α)) (i : ℕ) :
    ((ms.enumFrom i).map fun p => p.2.names.map fun n => label ++ toString p.1 ++ n).flatten
      = labelledFrom label i ms := by
  induction ms generalizing i with
  | nil => rfl
  | cons m t ih => simp [labelledFrom, List.enumFrom, ih]

theorem labelledFrom_length_eq {α : Type} (label : String) (ms : List (PModel α)) (i : ℕ) :
    (labelledFrom label i ms).length = (ms.map fun m => m.names.length).sum := by
  induction ms generalizing i with
  | nil => rfl
  | cons m t ih => simp [labelledFrom, ih]

/-- C6 (amended): `get_param_names()` returns, in the fixed concatenation
order, one name per free parameter (given that each model reports one name
per free parameter), each name being the model's own parameter name prefixed
by a group label and the zero-based index of the model within its group —
but the labels are `Detector`, `Source`, `Crystal`, `Crystal`: the two
crystal groups share the label `Crystal`, so the names are NOT globally
unique across all four groups. -/
theorem param_names_structure (pp : PredParam)
    (h1 : ∀ m ∈ pp.det, m.names.length = m.params.length)
    (h2 : ∀ m ∈ pp.beam, m.names.length = m.params.length)
    (h3 : ∀ m ∈ pp.xlo, m.names.length = m.params.length)
    (h4 : ∀ m ∈ pp.xluc, m.names.length = m.params.length) :
    get_param_names pp =
      labelledFrom "Detector" 0 pp.det ++ labelledFrom "Source" 0 pp.beam ++
        labelledFrom "Crystal" 0 pp.xlo ++ labelledFrom "Crystal" 0 pp.xluc ∧
    (get_param_names pp).length = total_len pp := by
  have hl : ∀ (α : Type) (label : String) (i : ℕ) (ms : List (PModel α)),
      (∀ m ∈ ms, m.names.length = m.params.length) →
      (labelledFrom label i ms).length = sumFree ms := by
    intro α label i ms hm
    rw [labelledFrom_length_eq]
    unfold sumFree
    rw [List.map_congr_left hm]
  have hc : get_param_names pp =
      labelledFrom "Detector" 0 pp.det ++ labelledFrom "Source" 0 pp.beam ++
        labelledFrom "Crystal" 0 pp.xlo ++ labelledFrom "Crystal" 0 pp.xluc := by
    simp only [get_param_names, List.enum, enumFrom_labelled]
  refine ⟨hc, ?_⟩
  rw [hc]
  simp only [List.length_append, total_len, hl _ _ _ _ h1, hl _ _ _ _ h2, hl _ _ _ _ h3,
    hl _ _ _ _ h4]

theorem param_names_structure_witness :
    get_param_names ppNamesClash =
      labelledFrom "Detector" 0 ppNamesClash.det ++ labelledFrom "Source" 0 ppNamesClash.beam ++
        labelledFrom "Crystal" 0 ppNamesClash.xlo ++ labelledFrom "Crystal" 0 ppNamesClash.xluc ∧
    (get_param_names ppNamesClash).length = total_len ppNamesClash :=
  param_names_structure ppNamesClash (by decide) (by decide) (by decide) (by decide)
